import Mathlib

/-!
Verification of the blogg static site shell. The development shallowly embeds
the three pieces of non-content logic in the repository: the Prism grammar
bootstrap run at the top of the application shell module
(src/pages/_app.js and its duplicate src/unnamed/part_002), the theme
configuration record exported by src/unnamed/part_000, and the render
wrapper both shells export. Theorems below settle the specified properties
of these components.
-/

set_option autoImplicit false

namespace Blogg

/-- A grammar registry: an association list from language identifiers to
grammar rulesets. It mirrors the object holding Prism language entries,
where assigning an entry for an existing identifier replaces its value in
place and assigning a new identifier appends the entry. -/
abbrev GrammarRegistry := List (String × String)

/-- Whether the registry holds an entry for the given language identifier. -/
def registryContains (reg : GrammarRegistry) (lang : String) : Bool :=
  reg.any (fun p => p.1 = lang)

/-- Register a grammar ruleset under a language identifier, with the
replace-or-append behavior of property assignment on the languages object. -/
def registerGrammar (reg : GrammarRegistry) (lang grammar : String) : GrammarRegistry :=
  if registryContains reg lang then
    reg.map (fun p => if p.1 = lang then (lang, grammar) else p)
  else
    reg ++ [(lang, grammar)]

/-- The grammar ruleset a required prismjs component installs for its
language; the ruleset data is opaque to the shell, so it is modelled by the
name of the component that defines it. -/
def grammarFor (lang : String) : String := "prism-" ++ lang

/-- The language identifiers required at the top of src/pages/_app.js, in
source order: prism-rust, prism-go, prism-c, prism-asm6502, prism-nasm. -/
def appShellRequires : List String := ["rust", "go", "c", "asm6502", "nasm"]

/-- The language identifiers required at the top of the duplicate shell
src/unnamed/part_002, in source order: prism-rust, prism-nasm, prism-bash. -/
def altShellRequires : List String := ["rust", "nasm", "bash"]

/-- Run a shell module top-level bootstrap from a given registry state: each
require statement registers the grammar of its component. -/
def runBootstrap (reqList : List String) (reg : GrammarRegistry) : GrammarRegistry :=
  reqList.foldl (fun r lang => registerGrammar r lang (grammarFor lang)) reg

/-- The registry contents after the bootstrap of src/pages/_app.js runs in a
fresh process. -/
def bootstrapRegistry : GrammarRegistry := runBootstrap appShellRequires []

/-- The registry contents after the bootstrap of the duplicate shell
src/unnamed/part_002 runs in a fresh process. -/
def altBootstrapRegistry : GrammarRegistry := runBootstrap altShellRequires []

/-- The registry operations a shell module can perform. The source only ever
registers grammars at module top level; no removal operation appears
anywhere in the repository. -/
inductive RegistryOp where
  | register (lang grammar : String)

/-- Apply one registry operation. -/
def applyOp (reg : GrammarRegistry) : RegistryOp → GrammarRegistry
  | RegistryOp.register lang grammar => registerGrammar reg lang grammar

/-- Apply a trace of registry operations in order. -/
def applyOps (ops : List RegistryOp) (reg : GrammarRegistry) : GrammarRegistry :=
  ops.foldl applyOp reg

/-- The exact registry-operation trace of the module top level of
src/pages/_app.js. -/
def appShellOps : List RegistryOp :=
  appShellRequires.map (fun lang => RegistryOp.register lang (grammarFor lang))

/-- The two global namespaces the shell can install the Prism engine into:
the server-side global object or the browser-side window object. -/
inductive GlobalNs where
  | serverGlobal
  | browserWindow
deriving DecidableEq

/-- An execution environment, characterized by which of the two global
namespaces exist in it. -/
structure JsEnv where
  hasGlobal : Bool
  hasWindow : Bool

/-- The namespace selected by the conditional expression at line 4 of
src/pages/_app.js (and line 5 of src/unnamed/part_002), which tests
whether typeof global is undefined and otherwise evaluates window: the
server-side global when it exists, else the browser window when that
exists, else no namespace is reachable and the engine is not installed. -/
def selectNs (env : JsEnv) : Option GlobalNs :=
  if env.hasGlobal then some GlobalNs.serverGlobal
  else if env.hasWindow then some GlobalNs.browserWindow
  else none

/-- The theme configuration record exported by src/unnamed/part_000. The
logo and footer fragments are modelled by the text they render; the head
fragment is modelled as the ordered list of its tags, each a tag name with
its attribute list. -/
structure SiteConfig where
  repository : String
  titleSuffix : String
  logo : String
  head : List (String × List (String × String))
  search : Bool
  prevLinks : Bool
  nextLinks : Bool
  footer : Bool
  footerEditOnGitHubLink : Bool
  footerText : String
deriving DecidableEq

/-- The text the footer fragment renders, with the calendar year observed by
new Date().getFullYear() at evaluation time embedded. -/
def footerTextFor (year : Nat) : String :=
  " " ++ toString year ++ " © @martinomburajr."

/-- The default export of src/unnamed/part_000, as a function of the
calendar year observed when the footer fragment is evaluated. -/
def siteConfig (year : Nat) : SiteConfig where
  repository := "https://github.com/martinomburajr"
  titleSuffix := " 🦆"
  logo := "@martinomburajr 🦆"
  head :=
    [("script", [("type", "text/javascript"), ("src", "gtag.js")]),
     ("meta", [("name", "msapplication-TileColor"), ("content", "#ffffff")]),
     ("meta", [("name", "theme-color"), ("content", "#ffffff")]),
     ("meta", [("name", "viewport"), ("content", "width=device-width, initial-scale=1.0")]),
     ("meta", [("httpEquiv", "Content-Language"), ("content", "en")]),
     ("meta", [("name", "description"),
       ("content", "A centralized blog for Martin Ombura Jr. Featuring info on Go, Rust, Distributed Systems etc.")]),
     ("meta", [("name", "og:description"),
       ("content", "A centralized blog for Martin Ombura Jr. Featuring info on Go, Rust, Distributed Systems etc.")]),
     ("meta", [("name", "twitter:card"), ("content", "summary_large_image")]),
     ("meta", [("name", "twitter:image"), ("content", "https://nextra.vercel.app/og.png")]),
     ("meta", [("name", "twitter:site:domain"), ("content", "https://twitter.com/martinomburajr")]),
     ("meta", [("name", "twitter:url"), ("content", "https://twitter.com/martinomburajr")]),
     ("meta", [("name", "og:title"), ("content", "Martin Ombura Jr. Blog")]),
     ("meta", [("name", "og:image"), ("content", "https://nextra.vercel.app/og.png")]),
     ("meta", [("name", "apple-mobile-web-app-title"), ("content", "Nextra")]),
     ("link", [("rel", "apple-touch-icon"), ("sizes", "180x180"), ("href", "/apple-icon-180x180.png")]),
     ("link", [("rel", "icon"), ("type", "image/png"), ("sizes", "192x192"), ("href", "/android-icon-192x192.png")]),
     ("link", [("rel", "icon"), ("type", "image/png"), ("sizes", "32x32"), ("href", "/favicon-32x32.png")]),
     ("link", [("rel", "icon"), ("type", "image/png"), ("sizes", "96x96"), ("href", "/favicon-96x96.png")]),
     ("link", [("rel", "icon"), ("type", "image/png"), ("sizes", "16x16"), ("href", "/favicon-16x16.png")]),
     ("meta", [("name", "msapplication-TileImage"), ("content", "/ms-icon-144x144.png")])]
  search := true
  prevLinks := true
  nextLinks := true
  footer := true
  footerEditOnGitHubLink := false
  footerText := footerTextFor year

/-- Accessing the configuration export at any point in the process: the
record is constructed once when the module is evaluated, capturing the year
at load, and every later access returns that same record regardless of the
access point. -/
def siteConfigAccess (loadYear : Nat) (_accessPoint : Nat) : SiteConfig :=
  siteConfig loadYear

/-- The result of rendering one fenced code block. -/
inductive RenderedBlock where
  | highlighted (lang body : String)
  | plain (body : String)
deriving DecidableEq

/-- Modelled from the spec: the fenced-code-block renderer is supplied by
the external framework (prism-react-renderer and the MDX pipeline) and its
code is not under src/. Per the spec, a block whose declared language
identifier is present in the grammar registry renders with highlighted
styling, and any other block silently falls back to unstyled plain text;
rendering is a total function and never fails. -/
def renderCodeBlock (reg : GrammarRegistry) (lang body : String) : RenderedBlock :=
  if registryContains reg lang then RenderedBlock.highlighted lang body
  else RenderedBlock.plain body

/-- The declared language identifier of every fenced code block in the
content pages, in source order: the eight blocks of src/unnamed/part_001
followed by the six blocks of src/pages/rust/index.md. -/
def contentPageCodeLangs : List String :=
  ["rust", "bash", "nasm", "nasm", "nasm", "rust", "bash", "nasm",
   "rust", "bash", "nasm", "rust", "bash", "x86asm"]

/-- A rendered vnode tree: an element is a component rendered with a props
record (an association list of prop names to values), and a fragment groups
children without contributing output of its own. -/
inductive VNode where
  | elem (component : String) (props : List (String × String))
  | fragment (children : List VNode)

/-- Set one prop on a props record: assignment on a JS object replaces the
value of an existing key in place and appends a new key. -/
def setProp (props : List (String × String)) (key val : String) : List (String × String) :=
  if props.any (fun p => p.1 = key) then
    props.map (fun p => if p.1 = key then (key, val) else p)
  else
    props ++ [(key, val)]

/-- Spread a props record into a base record, as the JSX spread of
pageProps into the props object of the element does: each key of extra is
assigned onto base in order. -/
def spreadProps (base extra : List (String × String)) : List (String × String) :=
  extra.foldl (fun acc kv => setProp acc kv.1 kv.2) base

/-- The render wrapper exported by src/pages/_app.js: it returns the
router-selected Component rendered with pageProps spread into a fresh props
object, and nothing else. -/
def Nextra (component : String) (pageProps : List (String × String)) : VNode :=
  VNode.elem component (spreadProps [] pageProps)

/-- The render wrapper exported by the duplicate shell
src/unnamed/part_002: the same element wrapped in a fragment. -/
def NextraAlt (component : String) (pageProps : List (String × String)) : VNode :=
  VNode.fragment [VNode.elem component (spreadProps [] pageProps)]

/-- The page elements a vnode tree renders, in order; fragments contribute
no output of their own. -/
def renderedElements : VNode → List (String × List (String × String))
  | VNode.elem c p => [(c, p)]
  | VNode.fragment children =>
      (children.attach.map (fun ch => renderedElements ch.1)).flatten
decreasing_by
  have h := List.sizeOf_lt_of_mem ch.2
  simp only [VNode.fragment.sizeOf_spec]
  omega

theorem registryContains_registerGrammar (reg : GrammarRegistry) (l g x : String)
    (h : registryContains reg x = true) :
    registryContains (registerGrammar reg l g) x = true := by
  unfold registerGrammar
  by_cases hc : registryContains reg l = true
  · simp only [hc, if_true]
    simp only [registryContains, List.any_eq_true, decide_eq_true_eq] at h ⊢
    obtain ⟨p, hp, hpx⟩ := h
    refine ⟨if p.1 = l then (l, g) else p, List.mem_map_of_mem _ hp, ?_⟩
    by_cases h1 : p.1 = l
    · rw [if_pos h1]
      exact h1 ▸ hpx
    · rw [if_neg h1]
      exact hpx
  · simp only [hc, if_false]
    simp only [registryContains, List.any_append] at h ⊢
    simp [h]

theorem registryContains_applyOps (ops : List RegistryOp) (reg : GrammarRegistry) (x : String)
    (h : registryContains reg x = true) :
    registryContains (applyOps ops reg) x = true := by
  induction ops generalizing reg with
  | nil => exact h
  | cons op rest ih =>
      cases op with
      | register l g =>
          simp only [applyOps, List.foldl_cons] at *
          exact ih _ (registryContains_registerGrammar reg l g x h)

theorem setProp_of_fresh_key (base : List (String × String)) (k v : String)
    (h : base.any (fun p => p.1 = k) = false) :
    setProp base k v = base ++ [(k, v)] := by
  simp [setProp, h]

theorem spreadProps_of_disjoint (extra : List (String × String)) :
    ∀ base : List (String × String),
      (extra.map Prod.fst).Nodup →
      (∀ k ∈ extra.map Prod.fst, base.any (fun p => p.1 = k) = false) →
      spreadProps base extra = base ++ extra := by
  induction extra with
  | nil =>
      intro base _ _
      simp [spreadProps]
  | cons kv rest ih =>
      intro base hnd hdis
      obtain ⟨k, v⟩ := kv
      simp only [List.map_cons, List.nodup_cons] at hnd
      have hbase : base.any (fun p => p.1 = k) = false := hdis k (by simp)
      have hstep : spreadProps base ((k, v) :: rest) = spreadProps (base ++ [(k, v)]) rest := by
        simp [spreadProps, setProp_of_fresh_key base k v hbase]
      have hdis2 : ∀ k2 ∈ rest.map Prod.fst,
          (base ++ [(k, v)]).any (fun p => p.1 = k2) = false := by
        intro k2 hk2
        have h1 : base.any (fun p => p.1 = k2) = false := hdis k2 (by simp [hk2])
        have h2 : k ≠ k2 := fun he => hnd.1 (he ▸ hk2)
        simp [List.any_append, h1, h2]
      rw [hstep, ih (base ++ [(k, v)]) hnd.2 hdis2]
      simp

theorem globalNs_cases (ns : GlobalNs) :
    ns = GlobalNs.serverGlobal ∨ ns = GlobalNs.browserWindow := by
  cases ns
  · exact Or.inl rfl
  · exact Or.inr rfl

theorem spreadProps_nil_of_nodup (p : List (String × String))
    (h : (p.map Prod.fst).Nodup) :
    spreadProps [] p = p := by
  have hd := spreadProps_of_disjoint p [] h (fun k _ => rfl)
  simpa using hd

/-- Claim C1 as stated is false: bash is in the fixed bootstrap list of the
spec, but after the bootstrap of the application shell src/pages/_app.js
runs, the grammar registry holds no entry for the identifier bash. -/
theorem bash_missing_after_app_shell_bootstrap :
    registryContains bootstrapRegistry "bash" = false := by decide

/-- Claim C1, amended: for every language identifier in the list the
application shell src/pages/_app.js actually requires, namely rust, go, c,
asm6502 and nasm, after its bootstrap runs the grammar registry contains an
entry for that identifier; bash is required only by the duplicate shell
src/unnamed/part_002. -/
theorem app_shell_bootstrap_registers_required_langs (lang : String)
    (h : lang ∈ appShellRequires) :
    registryContains bootstrapRegistry lang = true := by
  fin_cases h <;> decide

theorem app_shell_bootstrap_registers_required_langs_witness :
    registryContains bootstrapRegistry "rust" = true :=
  app_shell_bootstrap_registers_required_langs "rust" (by decide)

/-- Claim C2: for every fenced code block of the content pages, rendering
against the bootstrap registry is total: a block whose declared language
identifier is absent from the registry falls back to unstyled plain text
rather than failing, and a block whose identifier is registered renders
with highlighted styling. -/
theorem codeBlock_render_fallback_total (lang : String)
    (_hmem : lang ∈ contentPageCodeLangs) :
    ∀ body : String,
      (registryContains bootstrapRegistry lang = false →
        renderCodeBlock bootstrapRegistry lang body = RenderedBlock.plain body) ∧
      (registryContains bootstrapRegistry lang = true →
        renderCodeBlock bootstrapRegistry lang body = RenderedBlock.highlighted lang body) := by
  intro body
  constructor
  · intro h
    simp [renderCodeBlock, h]
  · intro h
    simp [renderCodeBlock, h]

theorem codeBlock_render_fallback_total_witness :
    renderCodeBlock bootstrapRegistry "x86asm" "pushq" = RenderedBlock.plain "pushq" :=
  (codeBlock_render_fallback_total "x86asm" (by decide) "pushq").1 (by decide)

/-- Claim C3: the grammar bootstrap of src/pages/_app.js is idempotent;
running it a second time in the same process leaves the grammar registry
exactly as one run left it. -/
theorem bootstrap_idempotent :
    runBootstrap appShellRequires (runBootstrap appShellRequires []) =
      runBootstrap appShellRequires [] := by decide

/-- Claim C4: the configuration record is deterministic in every field
except the footer text, and the footer text embeds exactly the calendar
year observed at render time. -/
theorem siteConfig_deterministic_except_year (y1 y2 : Nat) :
    (siteConfig y1).repository = (siteConfig y2).repository ∧
    (siteConfig y1).titleSuffix = (siteConfig y2).titleSuffix ∧
    (siteConfig y1).logo = (siteConfig y2).logo ∧
    (siteConfig y1).head = (siteConfig y2).head ∧
    (siteConfig y1).search = (siteConfig y2).search ∧
    (siteConfig y1).prevLinks = (siteConfig y2).prevLinks ∧
    (siteConfig y1).nextLinks = (siteConfig y2).nextLinks ∧
    (siteConfig y1).footer = (siteConfig y2).footer ∧
    (siteConfig y1).footerEditOnGitHubLink = (siteConfig y2).footerEditOnGitHubLink ∧
    (siteConfig y1).footerText = footerTextFor y1 :=
  ⟨rfl, rfl, rfl, rfl, rfl, rfl, rfl, rfl, rfl, rfl⟩

/-- Claim C5: the grammar registry satisfies a monotone write-once
invariant. The complete write trace of the process is the bootstrap trace
appShellOps, run once, whose operations only register grammars; along any
two points of that trace, every entry present at the earlier point is still
present at the later point, and the registry after the full trace is
exactly the bootstrap registry that is only read afterwards. -/
theorem grammarRegistry_monotone_write_once (i j : Nat) (hij : i ≤ j) (lang : String)
    (h : registryContains (applyOps (appShellOps.take i) []) lang = true) :
    registryContains (applyOps (appShellOps.take j) []) lang = true ∧
    applyOps appShellOps [] = bootstrapRegistry := by
  constructor
  · have htake : appShellOps.take j =
        appShellOps.take i ++ (appShellOps.drop i).take (j - i) := by
      rw [← List.take_add]
      congr 1
      omega
    rw [htake]
    simp only [applyOps, List.foldl_append]
    exact registryContains_applyOps _ _ _ h
  · decide

theorem grammarRegistry_monotone_write_once_witness :
    registryContains (applyOps (appShellOps.take 5) []) "rust" = true :=
  (grammarRegistry_monotone_write_once 1 5 (by decide) "rust" (by decide)).1

/-- Claim C6: installing the engine selects between exactly the two global
namespaces; when the server-side global is unavailable it falls back to the
browser window and vice versa, with no other failure handling; in every
environment where at least one namespace exists, the engine is installed. -/
theorem prism_global_namespace_fallback (env : JsEnv)
    (h : env.hasGlobal = true ∨ env.hasWindow = true) :
    (selectNs env).isSome = true ∧
    (env.hasGlobal = false → selectNs env = some GlobalNs.browserWindow) ∧
    (env.hasWindow = false → selectNs env = some GlobalNs.serverGlobal) ∧
    (∀ ns : GlobalNs, selectNs env = some ns →
      ns = GlobalNs.serverGlobal ∨ ns = GlobalNs.browserWindow) := by
  obtain ⟨hg, hw⟩ := env
  refine ⟨?_, ?_, ?_, fun ns _ => globalNs_cases ns⟩
  · cases hg <;> cases hw <;> simp_all [selectNs]
  · intro hgf
    cases hw <;> simp_all [selectNs]
  · intro hwf
    cases hg <;> simp_all [selectNs]

theorem prism_global_namespace_fallback_witness :
    selectNs ⟨false, true⟩ = some GlobalNs.browserWindow :=
  (prism_global_namespace_fallback ⟨false, true⟩ (Or.inr rfl)).2.1 rfl

/-- Claim C7: the configuration provider is a pure accessor: the record is
built once at module evaluation, and any two accesses at any two points of
the process return identical field values. -/
theorem siteConfig_pure_accessor (loadYear t1 t2 : Nat) :
    siteConfigAccess loadYear t1 = siteConfigAccess loadYear t2 := rfl

/-- Claim C8: in the exported configuration the edit-on-GitHub affordance
is disabled, even though the repository URL field is set. -/
theorem footer_edit_on_github_disabled (year : Nat) :
    (siteConfig year).footerEditOnGitHubLink = false ∧
    (siteConfig year).repository = "https://github.com/martinomburajr" ∧
    (siteConfig year).repository ≠ "" :=
  ⟨rfl, rfl, by simp [siteConfig]⟩

/-- Claim C9: after the bootstrap of src/pages/_app.js runs, the grammar
registry contains entries for exactly the five identifiers rust, go, c,
asm6502 and nasm, in that order, and no entry for bash. -/
theorem app_shell_registers_exactly_five :
    bootstrapRegistry.map Prod.fst = ["rust", "go", "c", "asm6502", "nasm"] ∧
    registryContains bootstrapRegistry "bash" = false := by decide

/-- Claim C10: for every page component and every props record with
distinct prop names, the render wrapper of src/pages/_app.js returns
exactly the selected component rendered with those props unchanged, and
the duplicate shell of src/unnamed/part_002 renders exactly the same
single element, its fragment contributing no output of its own. -/
theorem nextra_renders_page_unchanged (c : String) (p : List (String × String))
    (hnodup : (p.map Prod.fst).Nodup) :
    Nextra c p = VNode.elem c p ∧
    renderedElements (NextraAlt c p) = renderedElements (VNode.elem c p) := by
  have hs : spreadProps [] p = p := spreadProps_nil_of_nodup p hnodup
  constructor
  · simp [Nextra, hs]
  · simp [NextraAlt, renderedElements, hs]

theorem nextra_renders_page_unchanged_witness :
    Nextra "Page" [("title", "Rust Generics")] =
      VNode.elem "Page" [("title", "Rust Generics")] :=
  (nextra_renders_page_unchanged "Page" [("title", "Rust Generics")] (by decide)).1

end Blogg
